import Mathlib

/-!
Shallow embedding of the deep-research / email-delivery core of the
repository (Python), together with proofs of the specification claims.

Source files embedded:
* `src/email_sender/guardrails_email.py`  (EmailGuardrails)
* `src/email_sender/gmail_sender.py`      (GmailSender._send_with_retry)
* `src/email_sender/config.py`            (EmailConfig defaults)
* `src/deep_research/research_manager.py` (ResearchManager)
* `src/deep_research/research_agents/email_agent.py` (send_email tool)
* `src/deep_research/models/research_models.py` (WebSearchPlan)

Machine timestamps are modelled as `Int` seconds (Python `datetime` /
`time.time()` arithmetic uses the same ordering); strings are Lean
`String`s, Python `str.lower()` is `Char.toLower` mapping (faithful on
ASCII), and the `re` patterns of the source are translated to equivalent
decidable substring / scanner functions, noted at each definition.
-/

namespace DeepResearchEmbed

/-- Does `pat` occur at the head of `hay`? -/
def startsWithSeq : List Char → List Char → Bool
  | _, [] => true
  | [], _ :: _ => false
  | h :: hs, p :: ps => h == p && startsWithSeq hs ps

/-- Does `pat` occur contiguously anywhere inside `hay`? -/
def containsSeq : List Char → List Char → Bool
  | hay, pat =>
    startsWithSeq hay pat ||
      match hay with
      | [] => false
      | _ :: t => containsSeq t pat

/-- Python `needle in haystack` (substring containment). -/
def strContains (haystack needle : String) : Bool :=
  containsSeq haystack.toList needle.toList

/-- Python `s.lower()` (faithful on ASCII, which is all the source compares). -/
def pyLower (s : String) : String :=
  String.mk (s.toList.map Char.toLower)

/-! ### EmailGuardrails state (`guardrails_email.py`, `__init__`) -/

/-- Mutable fields of an `EmailGuardrails` instance. -/
structure EGState where
  sent_count : Nat
  daily_limit : Nat
  hourly_limit : Nat
  send_history : List Int
deriving Repr, DecidableEq

/-- `EmailGuardrails.__init__`: sent_count 0, daily_limit 500 (Gmail's daily
limit), hourly_limit 50, empty send history. -/
def initEGState : EGState :=
  { sent_count := 0, daily_limit := 500, hourly_limit := 50, send_history := [] }

/-! ### check_spam_score -/

/-- Each spam regex of `self.spam_patterns`, paired with an equivalent literal
substring of the (already lowercased) content: pattern bang-bang-bang-plus
matches iff "!!!" occurs, the dollars pattern iff "$$$" occurs, and the remaining patterns are
literals searched case-insensitively, hence their lowercase forms. The first
component is the raw pattern text used in the issue message. -/
def spam_patterns : List (String × String) :=
  [("!!!+", "!!!"),
   ("\\$\\$\\$+", "$$$"),
   ("FREE!!!", "free!!!"),
   ("CLICK HERE NOW", "click here now"),
   ("ACT NOW", "act now"),
   ("LIMITED TIME", "limited time"),
   ("100% FREE", "100% free"),
   ("EARN \\$\\$\\$", "earn $$$")]

/-- `self.suspicious_keywords`. -/
def suspicious_keywords : List String :=
  ["viagra", "cialis", "casino", "lottery", "winner",
   "nigerian prince", "inheritance", "bank transfer",
   "password", "social security", "credit card"]

/-- Result dict of `check_spam_score`. -/
structure SpamResult where
  is_spam : Bool
  spam_score : Nat
  issues : List String
  severity : String
deriving Repr, DecidableEq

/-- `EmailGuardrails.check_spam_score(subject, body)`.

`content = f"{subject} {body}".lower()`; pattern hits +10 each, keyword hits
+15 each; the caps branch compares `sum(c.isupper() for c in content) /
max(len(content), 1)` against `0.3` — embedded as the exact rational
comparison `10 * caps > 3 * max len 1` (`content` is the lowercased string,
exactly as in the source); each `'!'` beyond 3 adds +5; subject length
below 10 or above 100 adds +5. -/
def check_spam_score (subject body : String) : SpamResult :=
  let content := pyLower (subject ++ " " ++ body)
  let patHits := spam_patterns.filter (fun p => strContains content p.2)
  let kwHits := suspicious_keywords.filter (fun k => strContains content k)
  let capsCount := content.toList.countP Char.isUpper
  let capsFire := 10 * capsCount > 3 * max content.length 1
  let exclaimCount := content.toList.countP (fun c => c = '!')
  let score :=
    10 * patHits.length + 15 * kwHits.length
      + (if capsFire then 20 else 0)
      + (if exclaimCount > 3 then 5 * (exclaimCount - 3) else 0)
      + (if subject.length < 10 then 5
         else if subject.length > 100 then 5 else 0)
  let issues :=
    patHits.map (fun p => "Spam pattern detected: " ++ p.1)
      ++ kwHits.map (fun k => "Suspicious keyword: " ++ k)
      ++ (if capsFire then ["Excessive caps"] else [])
      ++ (if exclaimCount > 3
          then ["Too many exclamation marks: " ++ toString exclaimCount] else [])
      ++ (if subject.length < 10 then ["Subject too short"]
          else if subject.length > 100 then ["Subject too long"] else [])
  { is_spam := decide (score ≥ 30),
    spam_score := score,
    issues := issues,
    severity := if score ≥ 50 then "high"
                else if score ≥ 30 then "medium" else "low" }

/-! ### check_rate_limits -/

/-- Message for a hit hourly cap. -/
def hourlyLimitMsg (recent limit : Nat) : String :=
  "Hourly limit reached: " ++ toString recent ++ "/" ++ toString limit ++ " emails"

/-- Message for a hit daily cap. -/
def dailyLimitMsg (recent limit : Nat) : String :=
  "Daily limit reached: " ++ toString recent ++ "/" ++ toString limit ++ " emails"

/-- `EmailGuardrails.check_rate_limits()`: prunes history to the last 24h
(`ts > now - 1 day`), then fails if the count within the last hour has
reached `hourly_limit`, then if the pruned count has reached `daily_limit`.
Returns (can_send, message, state after the pruning mutation). -/
def check_rate_limits (now : Int) (st : EGState) : Bool × String × EGState :=
  let pruned := st.send_history.filter (fun ts => now - 86400 < ts)
  let st' := { st with send_history := pruned }
  let recentHour := pruned.filter (fun ts => now - 3600 < ts)
  if st.hourly_limit ≤ recentHour.length then
    (false, hourlyLimitMsg recentHour.length st.hourly_limit, st')
  else if st.daily_limit ≤ pruned.length then
    (false, dailyLimitMsg pruned.length st.daily_limit, st')
  else
    (true, "Rate limits OK", st')

/-- `EmailGuardrails.record_send()`. -/
def record_send (now : Int) (st : EGState) : EGState :=
  { st with send_history := st.send_history ++ [now],
            sent_count := st.sent_count + 1 }

/-! ### validate_email_format -/

/-- Character class `[a-zA-Z0-9._%+-]` of the address regex. -/
def isLocalChar (c : Char) : Bool :=
  c.isAlpha || c.isDigit || c == '.' || c == '_' || c == '%' || c == '+' || c == '-'

/-- Character class `[a-zA-Z0-9.-]` of the address regex. -/
def isDomainChar (c : Char) : Bool :=
  c.isAlpha || c.isDigit || c == '.' || c == '-'

/-- `[a-zA-Z0-9.-]+\.[a-zA-Z]{2,}$` on `cs`: some dot splits `cs` into a
non-empty domain-character prefix and an all-letter suffix of length ≥ 2
reaching the end (existential split = backtracking regex semantics). -/
def domainTailOk (cs : List Char) : Bool :=
  (List.range cs.length).any (fun i =>
    cs.get? i == some '.' && decide (0 < i) && (cs.take i).all isDomainChar
      && decide (2 ≤ cs.length - (i + 1)) && (cs.drop (i + 1)).all Char.isAlpha)

/-- The anchored address regex of `validate_email_format` (caret, local
part, at-sign, domain, dot, 2+ letters, dollar): some at-sign splits `s`
into a non-empty local part (all local characters) and a domain matching
`domainTailOk`. Only the first at-sign can qualify, since the at-sign is
not a local character. The dollar anchor is read as end-of-string (Python
would additionally accept a single trailing newline). -/
def emailFormatOk (s : String) : Bool :=
  let cs := s.toList
  (List.range cs.length).any (fun j =>
    cs.get? j == some '@' && decide (0 < j) && (cs.take j).all isLocalChar
      && domainTailOk (cs.drop (j + 1)))

/-- `email.split('@')[1] if '@' in email else ''`: the text between the
first `'@'` and the following `'@'` (or the end). -/
def pyDomain (s : String) : String :=
  let cs := s.toList
  if cs.contains '@' then
    String.mk (((cs.dropWhile (fun c => c ≠ '@')).drop 1).takeWhile (fun c => c ≠ '@'))
  else ""

/-- `disposable_domains` of `validate_email_format`. -/
def disposable_domains : List String :=
  ["tempmail.com", "10minutemail.com", "guerrillamail.com"]

/-- Result dict of `validate_email_format`. -/
structure FormatResult where
  is_valid : Bool
  issues : List String
deriving Repr, DecidableEq

/-- `EmailGuardrails.validate_email_format(email)`. -/
def validate_email_format (email : String) : FormatResult :=
  let issues :=
    (if emailFormatOk email then [] else ["Invalid email format"])
      ++ (if strContains email ".con" || strContains email ".cmo"
          then ["Possible typo in domain"] else [])
      ++ (if disposable_domains.contains (pyDomain email)
          then ["Disposable email domain detected"] else [])
  { is_valid := issues.isEmpty, issues := issues }

/-! ### check_content_safety -/

/-- Character class of the URL body in `link_pattern`. The regex union
`[a-zA-Z]|[0-9]|[$-_@.&+]|[!*\\(\\),]|%hh` collapses to: letters, the byte
range `0x24..0x5F` (which already covers digits and every listed symbol
except `'!'`), and `'!'`. -/
def isLinkChar (c : Char) : Bool :=
  c.isAlpha || (decide (36 ≤ c.toNat) && decide (c.toNat ≤ 95)) || c == '!'

/-- `re.findall(link_pattern, body)`: left-to-right scan; at each position a
match is `https://` (preferred, as `[s]?` is greedy) or `http://` followed by
a non-empty maximal run of link characters; scanning resumes after a match,
or one character later when no match starts here. `fuel` bounds recursion by
the scanned length. -/
def findLinksAux : Nat → List Char → List String
  | 0, _ => []
  | _ + 1, [] => []
  | fuel + 1, c :: rest =>
    let cs := c :: rest
    if cs.take 8 == "https://".toList then
      let run := (cs.drop 8).takeWhile isLinkChar
      if run.isEmpty then findLinksAux fuel rest
      else String.mk ("https://".toList ++ run)
             :: findLinksAux fuel ((cs.drop 8).dropWhile isLinkChar)
    else if cs.take 7 == "http://".toList then
      let run := (cs.drop 7).takeWhile isLinkChar
      if run.isEmpty then findLinksAux fuel rest
      else String.mk ("http://".toList ++ run)
             :: findLinksAux fuel ((cs.drop 7).dropWhile isLinkChar)
    else findLinksAux fuel rest

/-- All URL matches in `body`. -/
def findLinks (body : String) : List String :=
  findLinksAux body.toList.length body.toList

/-- Shortened-URL markers checked per link. -/
def shortenerMarkers : List String := ["bit.ly", "tinyurl", "goo.gl"]

/-- `phishing_phrases` of `check_content_safety`. -/
def phishing_phrases : List String :=
  ["verify your account", "confirm your identity", "update your information",
   "suspended account", "unusual activity"]

/-- Result dict of `check_content_safety`. -/
structure SafetyResult where
  is_safe : Bool
  issues : List String
  severity : String
deriving Repr, DecidableEq

/-- `EmailGuardrails.check_content_safety(body)`. -/
def check_content_safety (body : String) : SafetyResult :=
  let links := findLinks body
  let issues :=
    (if 5 < links.length then ["Too many links: " ++ toString links.length] else [])
      ++ (links.filter (fun l =>
            shortenerMarkers.any (fun s => strContains (pyLower l) s))).map
          (fun l => "Shortened URL detected: " ++ l)
      ++ (phishing_phrases.filter (fun p => strContains (pyLower body) p)).map
          (fun p => "Potential phishing phrase: " ++ p)
      ++ (if strContains (pyLower body) "<script" || strContains (pyLower body) "javascript:"
          then ["Potential script injection detected"] else [])
  { is_safe := issues.isEmpty,
    issues := issues,
    severity := if 3 < issues.length then "high"
                else if 0 < issues.length then "medium" else "low" }

/-! ### validate_personalization -/

/-- `generic_greetings` of `validate_personalization`. -/
def generic_greetings : List String :=
  ["dear sir/madam", "to whom it may concern", "dear customer"]

/-- Result dict of `validate_personalization`. -/
structure PersonalizationResult where
  is_personalized : Bool
  issues : List String
  warnings : List String
deriving Repr, DecidableEq

/-- `EmailGuardrails.validate_personalization(body, recipient_name)`.
`recipient_name=None` and `recipient_name=""` are both falsy in
`if recipient_name and ...`. Merge-tag braces are written with their
escapes (`\x7b` = left brace, `\x7d` = right brace). -/
def validate_personalization (body : String) (recipient_name : Option String) :
    PersonalizationResult :=
  let warnings :=
    (if generic_greetings.any (fun g => strContains (pyLower body) g)
     then ["Generic greeting detected - consider personalizing"] else [])
      ++ (match recipient_name with
          | some n =>
            if !(n == "") && !(strContains (pyLower body) (pyLower n))
            then ["Recipient name " ++ n ++ " not found in email"] else []
          | none => [])
  let issues :=
    if strContains body "\x7b\x7b" || strContains body "\x7d\x7d"
        || strContains body "[NAME]"
    then ["Unreplaced merge tags detected"] else []
  { is_personalized := issues.isEmpty, issues := issues, warnings := warnings }

/-! ### run_all_checks -/

/-- Blocking message appended when the spam check classifies as spam. -/
def highSpamMsg (score : Nat) : String :=
  "High spam score: " ++ toString score

/-- Spam-check contribution to `blocking_issues` in `run_all_checks`. -/
def spamBlocking (sc : SpamResult) : List String :=
  if sc.is_spam then [highSpamMsg sc.spam_score] else []

/-- Spam-check contribution to `warnings` in `run_all_checks`
(the `elif spam_score > 15` branch). -/
def spamWarnings (sc : SpamResult) : List String :=
  if !sc.is_spam && decide (15 < sc.spam_score) then sc.issues else []

/-- Result dict of `run_all_checks`: the overall verdict, each per-check
sub-result (the `checks` mapping), the two issue lists, and the state after
the rate-limit pruning mutation. -/
structure GuardrailVerdict where
  passed : Bool
  rate_limit_passed : Bool
  rate_limit_message : String
  email_format : FormatResult
  spam : SpamResult
  safety : SafetyResult
  personalization : PersonalizationResult
  blocking_issues : List String
  warnings : List String
  newState : EGState
deriving Repr

/-- The aggregation body of `run_all_checks`, over the five check results:
`passed` starts true and each failing blocking check sets it false while
appending its issues to `blocking_issues`; spam scores above 15 (when not
spam), non-high safety issues and personalization warnings extend
`warnings`. -/
def aggregateChecks (rl : Bool × String × EGState) (fmt : FormatResult)
    (sc : SpamResult) (safety : SafetyResult) (pers : PersonalizationResult) :
    GuardrailVerdict :=
  let safetyBlocks := !safety.is_safe && safety.severity == "high"
  let passed := rl.1 && fmt.is_valid && !sc.is_spam && !safetyBlocks
  let blocking :=
    (if rl.1 then [] else [rl.2.1])
      ++ (if fmt.is_valid then [] else fmt.issues)
      ++ spamBlocking sc
      ++ (if safetyBlocks then safety.issues else [])
  let warns :=
    spamWarnings sc
      ++ (if !safety.is_safe && !safetyBlocks then safety.issues else [])
      ++ pers.warnings
  { passed := passed,
    rate_limit_passed := rl.1,
    rate_limit_message := rl.2.1,
    email_format := fmt,
    spam := sc,
    safety := safety,
    personalization := pers,
    blocking_issues := blocking,
    warnings := warns,
    newState := rl.2.2 }

/-- `EmailGuardrails.run_all_checks(subject, body, recipient_email,
recipient_name)`: runs the five checks in order and aggregates. -/
def run_all_checks (now : Int) (st : EGState) (subject body recipient_email : String)
    (recipient_name : Option String) : GuardrailVerdict :=
  aggregateChecks (check_rate_limits now st)
    (validate_email_format recipient_email)
    (check_spam_score subject body)
    (check_content_safety body)
    (validate_personalization body recipient_name)

/-! ### Helper lemmas -/

theorem char_isUpper_iff (c : Char) : c.isUpper = true ↔ 65 ≤ c.toNat ∧ c.toNat ≤ 90 := by
  simp [Char.isUpper, Char.toNat, UInt32.le_def, BitVec.le_def]
  rfl

theorem toLower_isUpper (c : Char) : (Char.toLower c).isUpper = false := by
  rw [Char.toLower]
  split
  · rename_i h
    have hval : (Char.ofNat (c.toNat + 32)).toNat = c.toNat + 32 := by
      rw [Char.ofNat, dif_pos (Or.inl (by omega : c.toNat + 32 < 0xd800))]
      simp [Char.ofNatAux, Char.toNat, UInt32.toNat, BitVec.toNat_ofNatLt]
    rw [Bool.eq_false_iff]
    intro hup
    have h2 := (char_isUpper_iff _).mp hup
    rw [hval] at h2
    omega
  · rename_i h
    rw [Bool.eq_false_iff]
    intro hup
    exact h ((char_isUpper_iff c).mp hup)

theorem countP_isUpper_pyLower (s : String) :
    (pyLower s).toList.countP Char.isUpper = 0 := by
  have : (pyLower s).toList = s.toList.map Char.toLower := rfl
  rw [this, List.countP_map]
  rw [List.countP_eq_zero]
  intro c _
  simp [Function.comp, toLower_isUpper]

theorem validate_email_format_valid_eq (e : String) :
    (validate_email_format e).is_valid = (validate_email_format e).issues.isEmpty := rfl

theorem check_content_safety_safe_eq (b : String) :
    (check_content_safety b).is_safe = (check_content_safety b).issues.isEmpty := rfl

theorem check_spam_score_is_spam_eq (s b : String) :
    (check_spam_score s b).is_spam
      = decide (30 ≤ (check_spam_score s b).spam_score) := rfl

theorem sevString_eq (iss : List String) :
    ((if 3 < iss.length then "high"
      else if 0 < iss.length then "medium" else "low") == "high")
      = decide (3 < iss.length) := by
  split
  · simp_all
  · split <;> simp_all

theorem check_content_safety_sev_eq (b : String) :
    ((check_content_safety b).severity == "high")
      = decide (3 < (check_content_safety b).issues.length) :=
  sevString_eq (check_content_safety b).issues

/-- Core aggregation facts of `run_all_checks`, for any component results
satisfying the structural facts that the real checks satisfy. -/
theorem aggregateChecks_spec (rl : Bool × String × EGState) (fmt : FormatResult)
    (sc : SpamResult) (safety : SafetyResult) (pers : PersonalizationResult)
    (hfmt : fmt.is_valid = fmt.issues.isEmpty)
    (hsafe : safety.is_safe = safety.issues.isEmpty)
    (hspam : sc.is_spam = decide (30 ≤ sc.spam_score))
    (hsev : (safety.severity == "high") = decide (3 < safety.issues.length)) :
    ((aggregateChecks rl fmt sc safety pers).passed = true
      ↔ (aggregateChecks rl fmt sc safety pers).blocking_issues = []) ∧
    (aggregateChecks rl fmt sc safety pers).passed
      = (rl.1 && fmt.is_valid && decide (sc.spam_score < 30)
          && !(safety.severity == "high")) := by
  have hnotspam : (!sc.is_spam) = decide (sc.spam_score < 30) := by
    rcases Nat.lt_or_ge sc.spam_score 30 with h | h
    · simp [hspam, h, Nat.not_le_of_lt h]
    · simp [hspam, h, Nat.not_lt_of_le h]
  have hblocks : (!safety.is_safe && safety.severity == "high")
      = (safety.severity == "high") := by
    rcases Nat.lt_or_ge 3 safety.issues.length with h | h
    · have hne : safety.issues ≠ [] := by
        intro hnil; rw [hnil] at h; simp at h
      simp [hsafe, hsev, h, List.isEmpty_iff, hne]
    · simp [hsev, Nat.not_lt_of_le h]
  unfold aggregateChecks
  dsimp only
  rw [hblocks, hnotspam]
  constructor
  · rw [spamBlocking, hspam]
    cases hrl : rl.1 <;>
      cases hv : decide (30 ≤ sc.spam_score) <;>
        cases hsv : (safety.severity == "high") <;>
          cases hfv : fmt.is_valid <;>
            simp_all [List.isEmpty_iff, highSpamMsg]
  · rfl

/-- C2: `run_all_checks` passes iff `blocking_issues` is empty, and `passed`
is exactly (rate-limit passed) AND (recipient format valid) AND
(spam score < 30) AND (content-safety severity not high). -/
theorem run_all_checks_pass_iff (now : Int) (st : EGState)
    (subject body recipient : String) (name : Option String) :
    ((run_all_checks now st subject body recipient name).passed = true
      ↔ (run_all_checks now st subject body recipient name).blocking_issues = []) ∧
    (run_all_checks now st subject body recipient name).passed
      = ((check_rate_limits now st).1
          && (validate_email_format recipient).is_valid
          && decide ((check_spam_score subject body).spam_score < 30)
          && !((check_content_safety body).severity == "high")) :=
  aggregateChecks_spec _ _ _ _ _
    (validate_email_format_valid_eq recipient)
    (check_content_safety_safe_eq body)
    (check_spam_score_is_spam_eq subject body)
    (check_content_safety_sev_eq body)

/-- C5 (code-bug evidence): `check_spam_score` computes the uppercase count
over the already-lowercased `content`, so that count is always 0 and the
excessive-caps branch (+20 and an excessive-caps issue) can never fire; in
particular an all-uppercase subject and body (100% caps) scores 0 with no
issues recorded, where the claim requires +20 and a caps issue. -/
theorem caps_branch_dead :
    (∀ subject body : String,
      (pyLower (subject ++ " " ++ body)).toList.countP Char.isUpper = 0) ∧
    (check_spam_score "AAAAAAAAAA" "BBB").spam_score = 0 ∧
    (check_spam_score "AAAAAAAAAA" "BBB").issues = [] ∧
    (check_spam_score "AAAAAAAAAA" "BBB").is_spam = false :=
  ⟨fun s b => countP_isUpper_pyLower (s ++ " " ++ b), by decide, by decide, by decide⟩

/-- C6: the spam check classifies as spam exactly when the score is at least
30; `run_all_checks` then fails the verdict and records the high-spam-score
blocking issue; a score strictly between 15 and 30 contributes no blocking
issue and instead surfaces the spam check's specific issues as warnings; the
result always carries the numeric score and the triggered issues (field
`spam` of the verdict is the full spam-check result). -/
theorem spam_threshold_spec (now : Int) (st : EGState)
    (subject body recipient : String) (name : Option String) :
    ((check_spam_score subject body).is_spam
        = decide (30 ≤ (check_spam_score subject body).spam_score)) ∧
    ((run_all_checks now st subject body recipient name).spam
        = check_spam_score subject body) ∧
    (30 ≤ (check_spam_score subject body).spam_score →
      (run_all_checks now st subject body recipient name).passed = false ∧
      highSpamMsg (check_spam_score subject body).spam_score
        ∈ (run_all_checks now st subject body recipient name).blocking_issues) ∧
    (15 < (check_spam_score subject body).spam_score →
      (check_spam_score subject body).spam_score < 30 →
      spamBlocking (check_spam_score subject body) = [] ∧
      ∀ i ∈ (check_spam_score subject body).issues,
        i ∈ (run_all_checks now st subject body recipient name).warnings) := by
  refine ⟨rfl, rfl, ?_, ?_⟩
  · intro h30
    have hspam : (check_spam_score subject body).is_spam = true := by
      rw [check_spam_score_is_spam_eq]; simpa using h30
    constructor
    · show (_ && _ && !(check_spam_score subject body).is_spam && _) = false
      rw [hspam]
      simp
    · show _ ∈ (_ ++ _ ++ spamBlocking (check_spam_score subject body) ++ _)
      rw [spamBlocking, hspam]
      simp
  · intro h15 h30
    have hspam : (check_spam_score subject body).is_spam = false := by
      rw [check_spam_score_is_spam_eq]
      simpa using Nat.not_le_of_lt h30
    refine ⟨by rw [spamBlocking, hspam]; rfl, ?_⟩
    intro i hi
    show i ∈ (spamWarnings (check_spam_score subject body) ++ _ ++ _)
    rw [spamWarnings, hspam]
    simp only [Bool.not_false, Bool.true_and, decide_eq_true_eq]
    rw [if_pos h15]
    simp [hi]

/-- Witness for `spam_threshold_spec`: a concrete subject and body whose spam
score reaches 30, where the verdict fails and carries the high-spam message. -/
theorem spam_threshold_witness :
    30 ≤ (check_spam_score "hi" "act now limited time winner").spam_score ∧
    ((run_all_checks 0 initEGState "hi" "act now limited time winner" "a@b.com" none).passed
        = false ∧
      highSpamMsg (check_spam_score "hi" "act now limited time winner").spam_score
        ∈ (run_all_checks 0 initEGState "hi" "act now limited time winner" "a@b.com" none).blocking_issues) :=
  ⟨by decide,
   (spam_threshold_spec 0 initEGState "hi" "act now limited time winner" "a@b.com" none).2.2.1
     (by decide)⟩

/-- C3: the default caps are 50 sends per hour and 500 per day; timestamps
older than 24 hours are pruned before every check (the stored history after
a check is exactly the 24h filter); with `hourly_limit` sends all recorded
within the last hour the check returns false with the hourly-limit reason;
and once the oldest of those sends has aged past 60 minutes (the rest still
within the hour) the check returns true again, provided the daily cap is
not reached; in general the check refuses exactly when the last-hour count
has reached the hourly cap or the pruned count has reached the daily cap. -/
theorem rate_limit_window_spec :
    initEGState.hourly_limit = 50 ∧ initEGState.daily_limit = 500 ∧
    ∀ (now : Int) (st : EGState),
      ((check_rate_limits now st).2.2.send_history
          = st.send_history.filter (fun ts => now - 86400 < ts)) ∧
      ((∀ ts ∈ st.send_history, now - 3600 < ts ∧ ts ≤ now) →
        st.hourly_limit ≤ st.send_history.length →
          (check_rate_limits now st).1 = false ∧
          (check_rate_limits now st).2.1
            = hourlyLimitMsg st.send_history.length st.hourly_limit) ∧
      (∀ (t0 : Int) (rest : List Int), st.send_history = t0 :: rest →
        t0 ≤ now - 3600 → (∀ ts ∈ rest, now - 3600 < ts) →
        rest.length + 1 = st.hourly_limit →
        (st.send_history.filter (fun ts => now - 86400 < ts)).length < st.daily_limit →
          (check_rate_limits now st).1 = true) ∧
      ((check_rate_limits now st).1 = false ↔
        (st.hourly_limit ≤
            ((st.send_history.filter (fun ts => now - 86400 < ts)).filter
              (fun ts => now - 3600 < ts)).length ∨
          st.daily_limit ≤
            (st.send_history.filter (fun ts => now - 86400 < ts)).length)) := by
  refine ⟨rfl, rfl, fun now st => ⟨?_, ?_, ?_, ?_⟩⟩
  · unfold check_rate_limits
    dsimp only
    split
    · rfl
    · split <;> rfl
  · intro hall hlen
    have hpr : st.send_history.filter (fun ts => now - 86400 < ts) = st.send_history := by
      rw [List.filter_eq_self]
      intro a ha
      have := (hall a ha).1
      simp only [decide_eq_true_eq]
      omega
    have hrh : st.send_history.filter (fun ts => now - 3600 < ts) = st.send_history := by
      rw [List.filter_eq_self]
      intro a ha
      have := (hall a ha).1
      simp only [decide_eq_true_eq]
      omega
    unfold check_rate_limits
    dsimp only
    rw [hpr, hrh, if_pos hlen]
    exact ⟨rfl, rfl⟩
  · intro t0 rest hhist ht0 hrest hcount hdaily
    have hsub : ∀ a : Int, (now - 3600 < a) → (now - 86400 < a) := by intro a ha; omega
    have hrh : (st.send_history.filter (fun ts => now - 86400 < ts)).filter
        (fun ts => now - 3600 < ts) = rest := by
      rw [List.filter_filter, hhist]
      rw [List.filter_cons_of_neg]
      · rw [List.filter_eq_self]
        intro a ha
        have := hrest a ha
        simp only [Bool.and_eq_true, decide_eq_true_eq]
        exact ⟨by omega, by omega⟩
      · simp only [Bool.and_eq_true, decide_eq_true_eq]
        intro hcontra
        omega
    unfold check_rate_limits
    dsimp only
    rw [hrh]
    rw [if_neg (by omega)]
    rw [if_neg (by omega)]
  · unfold check_rate_limits
    dsimp only
    split
    · rename_i h
      exact ⟨fun _ => Or.inl h, fun _ => rfl⟩
    · rename_i h
      split
      · rename_i h2
        exact ⟨fun _ => Or.inr h2, fun _ => rfl⟩
      · rename_i h2
        constructor
        · intro hc; cases hc
        · rintro (h1 | h1)
          · exact absurd h1 h
          · exact absurd h1 h2

/-- Witness for `rate_limit_window_spec`: with an hourly cap of 2 and two
sends at times 95 and 98, the check at time 100 refuses; at time 3696 the
send at 95 has aged past the hour and the check returns true again. -/
theorem rate_limit_window_witness :
    (check_rate_limits 100 ⟨0, 500, 2, [95, 98]⟩).1 = false ∧
    (check_rate_limits 3696 ⟨0, 500, 2, [95, 98]⟩).1 = true :=
  ⟨((rate_limit_window_spec.2.2 100 ⟨0, 500, 2, [95, 98]⟩).2.1 (by decide) (by decide)).1,
   (rate_limit_window_spec.2.2 3696 ⟨0, 500, 2, [95, 98]⟩).2.2.1 95 [98] rfl (by decide)
     (by decide) (by decide) (by decide)⟩

/-! ### Search fan-out (`research_manager.py`, `research_models.py`)

`ResearchManager.perform_searches` creates one asyncio task per plan item,
in plan order, and `asyncio.gather` returns the awaited results indexed by
task position regardless of the order in which tasks complete. Completion
is modelled explicitly: a schedule lists task indices in the order they
finish; each completion writes its result into the slot of its index; the
fan-in reads the slots out in index order. -/

/-- `WebSearchItem` of `research_models.py`. -/
structure WebSearchItem where
  reason : String
  query : String
deriving Repr, DecidableEq

/-- `WebSearchPlan` of `research_models.py` (`searches`, 3 to 5 items per
the pydantic bounds). -/
structure WebSearchPlan where
  searches : List WebSearchItem
deriving Repr, DecidableEq

/-- The prompt `ResearchManager.search` builds for one item. -/
def searchInput (item : WebSearchItem) : String :=
  "Search term: " ++ item.query ++ "\nReason for searching: " ++ item.reason

/-- Run the completion schedule: each finishing task `i` stores `compute i`
in slot `i`. -/
def completeTasks (compute : Nat → Option String) :
    List Nat → (Nat → Option String) → (Nat → Option String)
  | [], slots => slots
  | i :: sched, slots =>
    completeTasks compute sched (fun j => if j = i then compute i else slots j)

/-- Fan-in of `asyncio.gather`: after all completions, read the `n` slots
out in index order. -/
def gatherResults (compute : Nat → Option String) (n : Nat) (sched : List Nat) :
    List String :=
  (List.range n).map (fun i => (completeTasks compute sched (fun _ => none) i).getD "")

/-- `ResearchManager.perform_searches(search_plan)` with the Searcher
collaborator abstracted as `searcher` and completion order `sched`. -/
def perform_searches (searcher : String → String) (plan : WebSearchPlan)
    (sched : List Nat) : List String :=
  gatherResults
    (fun i => (plan.searches[i]?).map (fun it => searcher (searchInput it)))
    plan.searches.length sched

theorem completeTasks_not_mem (compute : Nat → Option String)
    (sched : List Nat) (slots : Nat → Option String) (i : Nat) (h : i ∉ sched) :
    completeTasks compute sched slots i = slots i := by
  induction sched generalizing slots with
  | nil => rfl
  | cons a rest ih =>
    rw [completeTasks]
    rw [ih _ (fun hm => h (List.mem_cons_of_mem a hm))]
    rw [if_neg (fun he => h (by rw [he]; exact List.mem_cons_self a rest))]

theorem completeTasks_mem (compute : Nat → Option String)
    (sched : List Nat) (slots : Nat → Option String) (i : Nat) (h : i ∈ sched) :
    completeTasks compute sched slots i = compute i := by
  induction sched generalizing slots with
  | nil => exact absurd h (List.not_mem_nil i)
  | cons a rest ih =>
    rw [completeTasks]
    by_cases hm : i ∈ rest
    · exact ih _ hm
    · have hia : i = a := by
        rcases List.mem_cons.mp h with h' | h'
        · exact h'
        · exact absurd h' hm
      rw [completeTasks_not_mem _ _ _ _ hm, if_pos hia, hia]

/-- C1: for every plan whose size is between 3 and 10 and every completion
schedule that finishes all tasks, `perform_searches` returns exactly one
summary per plan item, in plan order: the result has the plan's length and
the entry at index `i` is the searcher's summary for the plan item at
index `i`. -/
theorem perform_searches_ordered (searcher : String → String)
    (plan : WebSearchPlan) (sched : List Nat)
    (hcover : ∀ i, i < plan.searches.length → i ∈ sched)
    (_hsize : 3 ≤ plan.searches.length ∧ plan.searches.length ≤ 10) :
    (perform_searches searcher plan sched).length = plan.searches.length ∧
    ∀ (i : Nat) (h : i < plan.searches.length),
      (perform_searches searcher plan sched)[i]?
        = some (searcher (searchInput (plan.searches.get ⟨i, h⟩))) := by
  constructor
  · unfold perform_searches gatherResults
    rw [List.length_map, List.length_range]
  · intro i h
    unfold perform_searches gatherResults
    rw [List.getElem?_map, List.getElem?_range h]
    rw [Option.map_some']
    rw [completeTasks_mem _ _ _ _ (hcover i h)]
    rw [List.getElem?_eq_getElem h]
    rfl

/-- Witness for `perform_searches_ordered`: a three-item plan completed in
the order 2, 0, 1 still returns the index-0 summary first. -/
theorem perform_searches_ordered_witness :
    (3 ≤ (WebSearchPlan.mk
        [⟨"r0", "q0"⟩, ⟨"r1", "q1"⟩, ⟨"r2", "q2"⟩]).searches.length ∧
      (WebSearchPlan.mk
        [⟨"r0", "q0"⟩, ⟨"r1", "q1"⟩, ⟨"r2", "q2"⟩]).searches.length ≤ 10) ∧
    (perform_searches (fun s => s)
        (WebSearchPlan.mk [⟨"r0", "q0"⟩, ⟨"r1", "q1"⟩, ⟨"r2", "q2"⟩])
        [2, 0, 1]).length = 3 ∧
    (perform_searches (fun s => s)
        (WebSearchPlan.mk [⟨"r0", "q0"⟩, ⟨"r1", "q1"⟩, ⟨"r2", "q2"⟩])
        [2, 0, 1])[0]?
      = some "Search term: q0\nReason for searching: r0" :=
  ⟨by decide,
   (perform_searches_ordered (fun s => s)
      (WebSearchPlan.mk [⟨"r0", "q0"⟩, ⟨"r1", "q1"⟩, ⟨"r2", "q2"⟩]) [2, 0, 1]
      (by decide) (by decide)).1,
   (perform_searches_ordered (fun s => s)
      (WebSearchPlan.mk [⟨"r0", "q0"⟩, ⟨"r1", "q1"⟩, ⟨"r2", "q2"⟩]) [2, 0, 1]
      (by decide) (by decide)).2 0 (by decide)⟩

/-! ### GmailSender._send_with_retry (`gmail_sender.py`) -/

/-- Defaulted fields of `EmailConfig` (`config.py`). -/
structure EmailConfig where
  timeout : Nat
  max_retries : Nat
  use_tls : Bool
deriving Repr, DecidableEq

/-- `EmailConfig` field defaults: timeout 30, max_retries 3, use_tls true. -/
def defaultEmailConfig : EmailConfig :=
  { timeout := 30, max_retries := 3, use_tls := true }

/-- The typed errors one attempt can raise (`exceptions.py` /
`smtplib`): authentication, connection, or protocol/send failure, each
carrying its detail string. -/
inductive EmailError where
  | authError (detail : String)
  | connError (detail : String)
  | protoError (detail : String)
deriving Repr, DecidableEq

/-- The detail text of an error (`str(e)`). -/
def EmailError.detail : EmailError → String
  | .authError d => d
  | .connError d => d
  | .protoError d => d

/-- Outcome of one connect-send-quit attempt against the transport. -/
inductive AttemptOutcome where
  | ok
  | err (e : EmailError)
deriving Repr, DecidableEq

/-- Message of the `SendFailureError` raised after exhausting retries. -/
def sendFailureMsg (max_retries : Nat) (lastError : EmailError) : String :=
  "Failed to send email after " ++ toString max_retries
    ++ " attempts. Last error: " ++ lastError.detail

/-- Observable trace of one `_send_with_retry` call: the final outcome
(`ok` = returned, `error` = raised `SendFailureError`), the attempt numbers
executed, and the backoff waits slept between consecutive attempts. -/
structure RetryTrace where
  outcome : Except String Unit
  attempts : List Nat
  waits : List Nat
deriving Repr

/-- The body of `for attempt in range(1, max_retries + 1)`: on success
return; on an exception, if more attempts remain sleep `2 ** attempt` and
continue, else raise `SendFailureError` carrying the last error. An empty
remaining range falls out of the loop and returns normally. -/
def retryGo (transport : Nat → AttemptOutcome) (max_retries : Nat) :
    List Nat → RetryTrace
  | [] => { outcome := .ok (), attempts := [], waits := [] }
  | a :: rest =>
    match transport a with
    | .ok => { outcome := .ok (), attempts := [a], waits := [] }
    | .err e =>
      if a < max_retries then
        let r := retryGo transport max_retries rest
        { outcome := r.outcome, attempts := a :: r.attempts, waits := 2 ^ a :: r.waits }
      else
        { outcome := .error (sendFailureMsg max_retries e), attempts := [a], waits := [] }

/-- `GmailSender._send_with_retry`, with the transport abstracted as the
outcome of each numbered attempt. -/
def send_with_retry (transport : Nat → AttemptOutcome) (max_retries : Nat) :
    RetryTrace :=
  retryGo transport max_retries (List.range' 1 max_retries)

theorem retryGo_attempts_le (transport : Nat → AttemptOutcome) (m : Nat)
    (l : List Nat) : (retryGo transport m l).attempts.length ≤ l.length := by
  induction l with
  | nil => exact Nat.le_refl 0
  | cons a rest ih =>
    rw [retryGo]
    cases transport a with
    | ok => simp
    | err e =>
      dsimp only
      split
      · simpa using Nat.succ_le_succ ih
      · simp

theorem retryGo_waits_pow (transport : Nat → AttemptOutcome) (m : Nat) :
    ∀ (k a : Nat),
      (retryGo transport m (List.range' a k)).waits
        = (List.range (retryGo transport m (List.range' a k)).waits.length).map
            (fun i => 2 ^ (a + i)) := by
  intro k
  induction k with
  | zero => intro a; rfl
  | succ n ih =>
    intro a
    rw [List.range'_succ, retryGo]
    cases transport a with
    | ok => rfl
    | err e =>
      dsimp only
      split
      · have htail := ih (a + 1)
        dsimp only
        rw [List.length_cons, List.range_succ_eq_map, List.map_cons, List.map_map]
        rw [Nat.add_zero]
        congr 1
        have hfun : ((fun i => 2 ^ (a + i)) ∘ Nat.succ) = (fun i => 2 ^ (a + 1 + i)) := by
          funext i
          simp only [Function.comp]
          congr 1
          omega
        rw [hfun]
        exact htail
      · rfl

theorem retryGo_congr (transport transport2 : Nat → AttemptOutcome) (m : Nat)
    (hsame : ∀ a, transport a = .ok ↔ transport2 a = .ok) (l : List Nat) :
    (retryGo transport2 m l).attempts = (retryGo transport m l).attempts ∧
    (retryGo transport2 m l).waits = (retryGo transport m l).waits := by
  induction l with
  | nil => exact ⟨rfl, rfl⟩
  | cons a rest ih =>
    rw [retryGo, retryGo]
    cases h1 : transport a with
    | ok =>
      have h2 : transport2 a = .ok := (hsame a).mp h1
      rw [h2]
      exact ⟨rfl, rfl⟩
    | err e =>
      cases h2 : transport2 a with
      | ok =>
        exact absurd ((hsame a).mpr h2) (by rw [h1]; intro hc; cases hc)
      | err e2 =>
        dsimp only
        split
        · exact ⟨by rw [ih.1], by rw [ih.2]⟩
        · exact ⟨rfl, rfl⟩

theorem retryGo_error (transport : Nat → AttemptOutcome) (m : Nat) :
    ∀ (k a : Nat) (msg : String), a + k = m + 1 →
      (retryGo transport m (List.range' a k)).outcome = .error msg →
      (retryGo transport m (List.range' a k)).attempts = List.range' a k ∧
      ∃ e, transport m = .err e ∧ msg = sendFailureMsg m e := by
  intro k
  induction k with
  | zero =>
    intro a msg _ h
    exact absurd h (by rw [List.range']; rw [retryGo]; intro hc; cases hc)
  | succ n ih =>
    intro a msg hinv h
    rw [List.range'_succ] at h ⊢
    rw [retryGo] at h ⊢
    cases htr : transport a with
    | ok => rw [htr] at h; exact absurd h (by intro hc; cases hc)
    | err e =>
      rw [htr] at h
      dsimp only at h ⊢
      by_cases hlt : a < m
      · rw [if_pos hlt] at h ⊢
        dsimp only at h ⊢
        have hrec := ih (a + 1) msg (by omega) h
        exact ⟨by rw [hrec.1], hrec.2⟩
      · rw [if_neg hlt] at h ⊢
        have ham : a = m := by omega
        have hn : n = 0 := by omega
        cases h
        subst ham hn
        exact ⟨rfl, e, htr, rfl⟩

/-- C4: per `_send_with_retry` call, at most `max_retries` transport
attempts are made (default 3); the waits between consecutive attempts are
`2^1, 2^2, ...` (`2^attempt` after failing attempt `attempt`), a strictly
increasing schedule; the loop retries all recoverable failures identically
regardless of error kind (two transports failing at the same attempts give
identical attempt and wait traces, authentication failures included); and a
transport error reaches the caller only when all `max_retries` attempts
failed, carrying the last error's detail. -/
theorem send_with_retry_spec (transport : Nat → AttemptOutcome) (max_retries : Nat) :
    defaultEmailConfig.max_retries = 3 ∧
    (send_with_retry transport max_retries).attempts.length ≤ max_retries ∧
    ((send_with_retry transport max_retries).waits
      = (List.range (send_with_retry transport max_retries).waits.length).map
          (fun i => 2 ^ (1 + i))) ∧
    List.Pairwise (· < ·) (send_with_retry transport max_retries).waits ∧
    (∀ transport2 : Nat → AttemptOutcome,
      (∀ a, transport a = .ok ↔ transport2 a = .ok) →
      (send_with_retry transport2 max_retries).attempts
          = (send_with_retry transport max_retries).attempts ∧
      (send_with_retry transport2 max_retries).waits
          = (send_with_retry transport max_retries).waits) ∧
    (∀ msg, (send_with_retry transport max_retries).outcome = .error msg →
      (send_with_retry transport max_retries).attempts.length = max_retries ∧
      ∃ e, transport max_retries = .err e ∧ msg = sendFailureMsg max_retries e) := by
  have hwaits := retryGo_waits_pow transport max_retries max_retries 1
  refine ⟨rfl, ?_, hwaits, ?_, ?_, ?_⟩
  · have h := retryGo_attempts_le transport max_retries (List.range' 1 max_retries)
    rwa [List.length_range'] at h
  · unfold send_with_retry
    rw [hwaits]
    refine (List.pairwise_map).mpr ?_
    refine (List.pairwise_lt_range _).imp ?_
    intro i j hij
    exact Nat.pow_lt_pow_right Nat.one_lt_two (by omega)
  · intro transport2 hsame
    exact retryGo_congr transport transport2 max_retries hsame (List.range' 1 max_retries)
  · intro msg h
    have herr := retryGo_error transport max_retries max_retries 1 msg (by omega) h
    refine ⟨?_, herr.2⟩
    unfold send_with_retry
    rw [herr.1, List.length_range']

/-- Witness for `send_with_retry_spec`: a transport failing attempts 1 and 2
with connection errors and one failing them with authentication errors give
the same attempt trace; a transport that always raises authentication
errors surfaces a failure carrying the last error after all 3 attempts. -/
theorem send_with_retry_witness :
    ((send_with_retry
        (fun a => if a = 3 then AttemptOutcome.ok
                  else AttemptOutcome.err (EmailError.authError "y")) 3).attempts
      = (send_with_retry
          (fun a => if a = 3 then AttemptOutcome.ok
                    else AttemptOutcome.err (EmailError.connError "x")) 3).attempts) ∧
    ((send_with_retry (fun _ => AttemptOutcome.err (EmailError.authError "boom")) 3).attempts.length
        = 3 ∧
      ∃ e, (fun _ : Nat => AttemptOutcome.err (EmailError.authError "boom")) 3
            = AttemptOutcome.err e ∧
        sendFailureMsg 3 (EmailError.authError "boom") = sendFailureMsg 3 e) :=
  ⟨((send_with_retry_spec
      (fun a => if a = 3 then AttemptOutcome.ok
                else AttemptOutcome.err (EmailError.connError "x")) 3).2.2.2.2.1
      (fun a => if a = 3 then AttemptOutcome.ok
                else AttemptOutcome.err (EmailError.authError "y"))
      (by intro a; by_cases h : a = 3 <;> simp [h])).1,
   (send_with_retry_spec (fun _ => AttemptOutcome.err (EmailError.authError "boom")) 3).2.2.2.2.2
     (sendFailureMsg 3 (EmailError.authError "boom")) rfl⟩

/-! ### send_email tool (`research_agents/email_agent.py`) -/

/-- The `<style>` block `_enhance_html_body` prepends. Its rule text is
abbreviated to a representative fragment: no claim inspects the CSS
content, only its position in the concatenation (braces written with
escapes, `\x7b`/`\x7d`). -/
def cssStyle : String :=
  "<style> body \x7b font-family: sans-serif; \x7d </style>"

/-- The footer `_enhance_html_body` appends when `add_footer` is set. -/
def footerHtml : String :=
  "<div class=\"footer\"><p>This email was automatically generated by the Research Agent System.</p></div>"

/-- `_enhance_html_body(html_body, include_timestamp, add_footer, priority)`:
wraps the body in html/head/body with the CSS, a priority div when priority
is not `"normal"`, a timestamp div when requested (`tsStr` abstracts
`datetime.now().strftime(...)`), and the footer when requested. -/
def enhance_html_body (html_body : String) (include_timestamp add_footer : Bool)
    (priority : String) (tsStr : String) : String :=
  "<html><head>" ++ cssStyle ++ "</head><body>"
    ++ (if priority ≠ "normal" then "<div class=\"priority-" ++ priority ++ "\">" else "")
    ++ (if include_timestamp
        then "<div class=\"timestamp\">Generated on " ++ tsStr ++ "</div>" else "")
    ++ html_body
    ++ (if priority ≠ "normal" then "</div>" else "")
    ++ (if add_footer then footerHtml else "")
    ++ "</body></html>"

/-- A Python value returned by the tool: a JSON-encoded string
(`json.dumps(...)`) or a raw dict (the tool's declared return type is
`str`, but one path returns a dict). -/
inductive PyVal where
  | str (s : String)
  | dict (status : String) (message : String)
deriving Repr, DecidableEq

/-- Whether a returned value is a string. -/
def PyVal.isStr : PyVal → Bool
  | .str _ => true
  | .dict _ _ => false

/-- Behaviour of `sender.send_html_email` for the one recipient: return a
result dict with its `success` flag and message, or raise. -/
inductive TransportBehavior where
  | returns (success : Bool) (message : String)
  | raises (msg : String)
deriving Repr, DecidableEq

/-- Does the transport report a successful send? -/
def transportReportsSuccess : TransportBehavior → Bool
  | .returns ok _ => ok
  | .raises _ => false

/-- Observable result of one `send_email` tool invocation: the returned
value, how many times `guardrails.record_send()` ran, and how many
transport send calls were made. -/
structure ToolResult where
  retval : PyVal
  recordSendCount : Nat
  transportAttempts : Nat
deriving Repr, DecidableEq

/-- The message of the blocked-path dict:
an f-string interpolating the recipient and the comma-joined issues. -/
def blockedMsg (recipient : String) (blocking : List String) : String :=
  "Email blocked by guardrails for " ++ recipient ++ ": "
    ++ String.intercalate ", " blocking

/-- Shape of the `json.dumps` strings the tool returns (status/message
pairs; the remaining metadata fields do not affect any claim). -/
def mkJson (status message : String) : String :=
  "\x7b\"status\": \"" ++ status ++ "\", \"message\": \"" ++ message ++ "\"\x7d"

/-- The guardrail verdict a `send_email` tool invocation computes: a fresh
`EmailGuardrails()` (empty history) evaluated on the subject, the enhanced
body and the recipient. -/
def toolVerdict (now : Int) (tsStr subject html_body recipient priority : String)
    (include_timestamp add_footer : Bool) : GuardrailVerdict :=
  run_all_checks now initEGState subject
    (enhance_html_body html_body include_timestamp add_footer priority tsStr)
    recipient none

/-- The `send_email` function tool with a single recipient and no cc/bcc:
construct a fresh `EmailGuardrails()`, enhance the body, run all checks; on
a failed verdict return the blocked dict without touching the transport;
otherwise call the transport once, call `record_send` exactly when the
result dict reports success, and return the JSON string (`"success"` when
the one send succeeded, else `"partial"`); a raised exception is caught and
returned as the error JSON string. -/
def send_email_tool (now : Int) (tsStr subject html_body recipient priority : String)
    (include_timestamp add_footer : Bool) (transport : TransportBehavior) :
    ToolResult :=
  let validation := toolVerdict now tsStr subject html_body recipient priority
    include_timestamp add_footer
  if !validation.passed then
    { retval := .dict "blocked" (blockedMsg recipient validation.blocking_issues),
      recordSendCount := 0, transportAttempts := 0 }
  else
    match transport with
    | .raises m =>
      { retval := .str (mkJson "error" ("Exception while sending email: " ++ m)),
        recordSendCount := 0, transportAttempts := 1 }
    | .returns ok _ =>
      { retval := .str (mkJson (if ok then "success" else "partial")
          ("Email sent to " ++ (if ok then "1" else "0") ++ " of 1 recipients")),
        recordSendCount := if ok then 1 else 0,
        transportAttempts := 1 }

/-- C7: per `send_email` tool invocation with a single recipient,
`record_send` runs exactly once when the verdict passes the message and the
transport reports success, and zero times otherwise; and a blocked verdict
returns without any transport attempt (transport calls happen exactly when
the verdict passes). -/
theorem deliver_record_send_spec (now : Int)
    (tsStr subject html_body recipient priority : String)
    (include_timestamp add_footer : Bool) (transport : TransportBehavior) :
    (send_email_tool now tsStr subject html_body recipient priority
        include_timestamp add_footer transport).recordSendCount
      = (if (toolVerdict now tsStr subject html_body recipient priority
              include_timestamp add_footer).passed
            && transportReportsSuccess transport
         then 1 else 0) ∧
    (send_email_tool now tsStr subject html_body recipient priority
        include_timestamp add_footer transport).transportAttempts
      = (if (toolVerdict now tsStr subject html_body recipient priority
              include_timestamp add_footer).passed
         then 1 else 0) := by
  cases hv : (toolVerdict now tsStr subject html_body recipient priority
      include_timestamp add_footer).passed with
  | false => simp [send_email_tool, hv]
  | true =>
    cases transport with
    | raises m => simp [send_email_tool, hv, transportReportsSuccess]
    | returns ok msg =>
      cases ok with
      | false => simp [send_email_tool, hv, transportReportsSuccess]
      | true => simp [send_email_tool, hv, transportReportsSuccess]

/-- C9: `send_email` builds a brand-new `EmailGuardrails()` on every
invocation, whose send history is empty; the rate-limit check over that
empty history passes at every time (so the verdict's rate-limit component
passes for every invocation, whatever earlier invocations recorded — no
`record_send` mutation survives into a later invocation, since no invocation
reads any prior state). -/
theorem fresh_guardrails_spec (now : Int)
    (tsStr subject html_body recipient priority : String)
    (include_timestamp add_footer : Bool) :
    initEGState.send_history = [] ∧
    (check_rate_limits now initEGState).1 = true ∧
    (check_rate_limits now initEGState).2.1 = "Rate limits OK" ∧
    (toolVerdict now tsStr subject html_body recipient priority
        include_timestamp add_footer).rate_limit_passed = true ∧
    (toolVerdict now tsStr subject html_body recipient priority
        include_timestamp add_footer).rate_limit_message = "Rate limits OK" :=
  ⟨rfl, rfl, rfl, rfl, rfl⟩

/-- C10: the tool's declared return type is `str`, and the successful-send
and exception paths do return JSON-encoded strings, but the guardrail-blocked
path returns a raw dict with status `"blocked"`: whether the returned value
is a string equals whether the verdict passed, so the three outcome variants
do not share one result shape. -/
theorem return_shape_spec (now : Int)
    (tsStr subject html_body recipient priority : String)
    (include_timestamp add_footer : Bool) (transport : TransportBehavior) :
    ((toolVerdict now tsStr subject html_body recipient priority
          include_timestamp add_footer).passed = false →
      (send_email_tool now tsStr subject html_body recipient priority
          include_timestamp add_footer transport).retval
        = PyVal.dict "blocked"
            (blockedMsg recipient
              (toolVerdict now tsStr subject html_body recipient priority
                  include_timestamp add_footer).blocking_issues)) ∧
    ((toolVerdict now tsStr subject html_body recipient priority
          include_timestamp add_footer).passed = true →
      ∃ s, (send_email_tool now tsStr subject html_body recipient priority
          include_timestamp add_footer transport).retval = PyVal.str s) ∧
    ((send_email_tool now tsStr subject html_body recipient priority
        include_timestamp add_footer transport).retval.isStr
      = (toolVerdict now tsStr subject html_body recipient priority
          include_timestamp add_footer).passed) := by
  cases hv : (toolVerdict now tsStr subject html_body recipient priority
      include_timestamp add_footer).passed with
  | false =>
    refine ⟨fun _ => ?_, fun hc => absurd hc (by simp), ?_⟩
    · simp [send_email_tool, hv]
    · simp [send_email_tool, hv, PyVal.isStr]
  | true =>
    refine ⟨fun hc => absurd hc (by simp), fun _ => ?_, ?_⟩
    · cases transport with
      | raises m =>
        exact ⟨mkJson "error" ("Exception while sending email: " ++ m),
          by simp [send_email_tool, hv]⟩
      | returns ok msg =>
        exact ⟨mkJson (if ok then "success" else "partial")
            ("Email sent to " ++ (if ok then "1" else "0") ++ " of 1 recipients"),
          by simp [send_email_tool, hv]⟩
    · cases transport with
      | raises m => simp [send_email_tool, hv, PyVal.isStr]
      | returns ok msg => simp [send_email_tool, hv, PyVal.isStr]

/-- Witness for `return_shape_spec`: a malformed recipient is blocked and
yields the raw dict; a well-formed clean message passes and yields a
string. -/
theorem return_shape_witness :
    ((toolVerdict 0 "" "subject okay here" "" "not-an-email" "normal" false false).passed
        = false ∧
      (send_email_tool 0 "" "subject okay here" "" "not-an-email" "normal" false false
          (TransportBehavior.raises "boom")).retval
        = PyVal.dict "blocked"
            (blockedMsg "not-an-email"
              (toolVerdict 0 "" "subject okay here" "" "not-an-email" "normal"
                  false false).blocking_issues)) ∧
    ((toolVerdict 0 "" "subject okay here" "" "a@b.co" "normal" false false).passed
        = true ∧
      ∃ s, (send_email_tool 0 "" "subject okay here" "" "a@b.co" "normal" false false
          (TransportBehavior.returns true "ok")).retval = PyVal.str s) :=
  ⟨⟨by decide,
    (return_shape_spec 0 "" "subject okay here" "" "not-an-email" "normal" false false
        (TransportBehavior.raises "boom")).1 (by decide)⟩,
   ⟨by decide,
    (return_shape_spec 0 "" "subject okay here" "" "a@b.co" "normal" false false
        (TransportBehavior.returns true "ok")).2.1 (by decide)⟩⟩

/-! ### Pipeline orchestration (`research_manager.py`) -/

/-- The four pipeline stages of `ResearchManager.run`. -/
inductive Stage where
  | planning
  | searching
  | writing
  | delivering
deriving Repr, DecidableEq

/-- Python `a or b` over an optional string: `None` and `""` are falsy. -/
def orDefault : Option String → String → String
  | none, b => b
  | some s, b => if s = "" then b else s

/-- Python `s.strip()`: drop whitespace from both ends. -/
def pyStrip (s : String) : String :=
  String.mk
    (((s.toList.dropWhile Char.isWhitespace).reverse.dropWhile Char.isWhitespace).reverse)

/-- `(recipient_email or os.getenv('RECIPIENT_EMAIL') or '').strip()`. -/
def resolveTarget (recipient_email envRecipient : Option String) : String :=
  pyStrip (orDefault recipient_email (orDefault envRecipient ""))

/-- Message of the `ValueError` raised by `ResearchManager.send_email`. -/
def missingRecipientMsg : String :=
  "Recipient email address is required. Provide an email in the request or set RECIPIENT_EMAIL."

/-- The recipient-resolution prologue of `ResearchManager.send_email`:
raises `ValueError` exactly when the resolved target is empty. -/
def send_email_step (recipient_email envRecipient : Option String) :
    Except String Unit :=
  if resolveTarget recipient_email envRecipient = ""
  then Except.error missingRecipientMsg
  else Except.ok ()

/-- `ResearchManager.run(query)` stage sequencing: steps 1-3 (plan, search,
write) run unconditionally, then step 4 calls `send_email` with
`recipient_email=None`; that step's recipient check is the only recipient
validation in the run. Collaborator content is abstracted (the spec treats
Planner/Searcher/Writer as opaque); the trace records which stages executed
and the final outcome. -/
def run_stages (envRecipient : Option String) : List Stage × Except String Unit :=
  match send_email_step none envRecipient with
  | Except.error e =>
    ([Stage.planning, Stage.searching, Stage.writing], Except.error e)
  | Except.ok _ =>
    ([Stage.planning, Stage.searching, Stage.writing, Stage.delivering],
      Except.ok ())

/-- C8 counterexample: with no explicit recipient and no configured default,
the missing-recipient `ValueError` is raised by Step 4, after Planning,
Searching and Writing have all executed — not "before any stage executes"
as the claim states. -/
theorem recipient_error_after_stages :
    (run_stages none).1 = [Stage.planning, Stage.searching, Stage.writing] ∧
    (run_stages none).1 ≠ [] ∧
    (run_stages none).2 = Except.error missingRecipientMsg :=
  ⟨rfl, by decide, rfl⟩

/-- C8 (amended): the explicit recipient argument, when non-empty, takes
precedence over the configured default; when both are absent the run fails
with the fatal missing-recipient configuration error raised by the
Delivering step — after Planning, Searching and Writing have executed and
before any delivery attempt (the Delivering stage never executes). -/
theorem recipient_resolution_spec :
    (∀ (e : String) (env : Option String), e ≠ "" →
      resolveTarget (some e) env = pyStrip e) ∧
    (∀ env : Option String, env = none ∨ env = some "" →
      run_stages env
          = ([Stage.planning, Stage.searching, Stage.writing],
              Except.error missingRecipientMsg) ∧
        Stage.delivering ∉ (run_stages env).1) := by
  constructor
  · intro e env he
    simp [resolveTarget, orDefault, he]
  · rintro env (rfl | rfl)
    · exact ⟨rfl, by decide⟩
    · exact ⟨rfl, by decide⟩

/-- Witness for `recipient_resolution_spec`: a non-empty explicit recipient
wins over a configured default, and the doubly-absent case fails after the
first three stages. -/
theorem recipient_resolution_witness :
    resolveTarget (some "a@b.com") (some "other@c.org") = "a@b.com" ∧
    run_stages none
      = ([Stage.planning, Stage.searching, Stage.writing],
          Except.error missingRecipientMsg) :=
  ⟨by
    have h := recipient_resolution_spec.1 "a@b.com" (some "other@c.org") (by decide)
    rw [h]
    decide,
   (recipient_resolution_spec.2 none (Or.inl rfl)).1⟩

end DeepResearchEmbed
